import Mathlib

/-!
Shallow embedding of `aiida/orm/nodes/data/code/portable.py` (`PortableCode`),
together with proofs about its specified behaviour.

The Python class stores a relative executable path as a node attribute and a
directory tree of files in a node-scoped repository.  We embed a bundle as a
record holding the attribute bag, the repository contents (relative path to
raw bytes), and the transient `filepath_files` instance attribute used by
`_prepare_yaml`.  Python exceptions become an explicit error type and each
method returns `Except`; methods that in Python could mutate the instance are
state-passing.  Collaborator interfaces that live outside this file
(the attribute store, the repository's tree ingest / listing / walk) are
modelled from the spec, as documented on each definition.
-/

set_option autoImplicit false

namespace PortableCodeSpec

/-- Raw byte content of a stored file (each entry a byte value). -/
abbrev Bytes := List Nat

/-- Python runtime values that can appear as the executable-path attribute or
as an argument to the `filepath_executable` accessor pair: a plain `str`, or a
`pathlib.PurePath` object (represented by its canonical string form). -/
inductive PyValue where
  | str (s : String)
  | purePath (s : String)
  deriving Repr, DecidableEq

/-- Python exceptions raised by the embedded code.  `valueError` raised for a
malformed constructor argument is what the spec calls `InvalidInputError`;
`pluginInternalError` is what the spec calls `ConflictError`; repository I/O
failures are what the spec calls `StorageError`. -/
inductive PyError where
  | typeError (msg : String)
  | valueError (msg : String)
  | validationError (msg : String)
  | pluginInternalError (msg : String)
  | storageError (msg : String)
  deriving Repr, DecidableEq

/-- Split a character list on `/` separators (components may be empty). -/
def splitSlash : List Char → List Char → List (List Char)
  | [], acc => [acc.reverse]
  | c :: rest, acc =>
      if c = '/' then acc.reverse :: splitSlash rest [] else splitSlash rest (c :: acc)

/-- Path components of a string the way `pathlib.PurePosixPath` keeps them:
empty components (duplicate or trailing slashes) and bare `.` components are
dropped; `..` components are kept. -/
def canonParts (s : String) : List String :=
  ((splitSlash s.data []).map String.mk).filter (fun c => c ≠ "" ∧ c ≠ ".")

/-- Whether `pathlib.PurePosixPath(s).is_absolute()` holds: the path has a
root, i.e. the string starts with a slash. -/
def isAbsolutePath (s : String) : Bool :=
  match s.data with
  | '/' :: _ => true
  | _ => false

/-- Canonical string rendering `str(pathlib.PurePosixPath(s))`: components
joined by single slashes, a lone leading slash for absolute paths, and `.` for
an empty relative path. -/
def purePathStr (s : String) : String :=
  let parts := canonParts s
  if isAbsolutePath s then "/" ++ String.intercalate "/" parts
  else if parts.isEmpty then "." else String.intercalate "/" parts

/-- Python `str()` of a value: a `str` renders verbatim, a `PurePath` renders
as its canonical string. -/
def pyStr : PyValue → String
  | .str s => s
  | .purePath s => s

/-- Key under which the executable path is stored
(`_KEY_ATTRIBUTE_FILEPATH_EXECUTABLE`). -/
def KEY_ATTRIBUTE_FILEPATH_EXECUTABLE : String := "filepath_executable"

/-- State of one `PortableCode` node: its label, the generic attribute bag,
the node-scoped repository contents (canonical relative path paired with raw
bytes), and the transient `filepath_files` instance attribute that
`_prepare_yaml` sets and deletes (`none` when the attribute is absent). -/
structure Bundle where
  label : String
  attributes : List (String × PyValue)
  repo : List (String × Bytes)
  filepath_files : Option String
  deriving Repr, DecidableEq

/-- Modelled from the spec: the attribute store's `get(key) -> value | absent`
(the generic key/value bag of the owning entity; `aiida.orm` node attributes
are not part of the source file).  `none` is the absent case, which the Python
caller observes as the value `None`. -/
def attrGet (attrs : List (String × PyValue)) (key : String) : Option PyValue :=
  (attrs.find? (fun kv => kv.1 == key)).map (fun kv => kv.2)

/-- Modelled from the spec: the attribute store's `set(key, value)`; a later
`get` of the same key returns the new value. -/
def attrSet (attrs : List (String × PyValue)) (key : String) (v : PyValue) :
    List (String × PyValue) :=
  (key, v) :: attrs

/-- The `pathlib.PurePath(...)` constructor applied to a retrieved attribute
value: a string is canonicalized, an existing pure path is kept, and the
absent value (Python `None`) raises `TypeError`, exactly as
`PurePath(None)` does. -/
def pathlib_PurePath (v : Option PyValue) : Except PyError PyValue :=
  match v with
  | some (.str s) => .ok (.purePath (purePathStr s))
  | some (.purePath s) => .ok (.purePath s)
  | none => .error (.typeError "argument should be a str or an os.PathLike object, not NoneType")

/-- Getter of the `filepath_executable` property: return
`pathlib.PurePath(self.base.attributes.get(KEY))`. -/
def filepath_executable_get (b : Bundle) : Except PyError PyValue :=
  pathlib_PurePath (attrGet b.attributes KEY_ATTRIBUTE_FILEPATH_EXECUTABLE)

/-- Setter of the `filepath_executable` property: `type_check(value, str)`
raises `TypeError` on any non-string, then an absolute path raises
`ValueError`, and only then is the attribute written.  The second component is
the (possibly updated) instance state. -/
def filepath_executable_set (b : Bundle) (value : PyValue) :
    Except PyError Unit × Bundle :=
  match value with
  | .str s =>
      if isAbsolutePath s then
        (.error (.valueError "The `filepath_executable` should not be absolute."), b)
      else
        (.ok (),
          { b with attributes := attrSet b.attributes KEY_ATTRIBUTE_FILEPATH_EXECUTABLE (.str s) })
  | .purePath _ =>
      (.error (.typeError "Got object of type PurePath, expecting str"), b)

/-- Modelled from the spec: the repository scope's
`listObjectNames() -> set of string`, the full set of stored object
relative-path strings (spec 4.2 step 2 enumerates all stored object
relative paths). -/
def list_object_names (b : Bundle) : List String :=
  b.repo.map (fun pc => pc.1)

/-- Message of the `ValidationError` raised when the executable is not among
the uploaded files; the `{objects}` part of the f-string renders the listing
like Python renders a list of strings. -/
def pyReprList (l : List String) : String :=
  "[" ++ String.intercalate ", " (l.map (fun s => "\x27" ++ s ++ "\x27")) ++ "]"

/-- Full text of the not-uploaded `ValidationError` message. -/
def notUploadedMsg (p : String) (objects : List String) : String :=
  "The executable `" ++ p ++ "` is not one of the uploaded files: " ++ pyReprList objects

/-- `PortableCode._validate`: read the executable pointer (a `TypeError` from
the getter, i.e. an unset attribute, becomes
`ValidationError("The filepath_executable is not set.")`), then require its
canonical string to be among the listed object names, otherwise raise a
`ValidationError` naming the path and the full listing.  The inherited generic
node validation is outside this component (spec section 1). -/
def PortableCode_validate (b : Bundle) : Except PyError Unit :=
  match filepath_executable_get b with
  | .error (.typeError _) =>
      .error (.validationError "The `filepath_executable` is not set.")
  | .error e => .error e
  | .ok fe =>
      let objects := list_object_names b
      if pyStr fe ∈ objects then .ok ()
      else .error (.validationError (notUploadedMsg (pyStr fe) objects))

/-- An execution target (`aiida.orm.Computer`); only its identity matters
here, the code never inspects it. -/
structure Computer where
  uuid : String
  deriving Repr, DecidableEq

/-- `PortableCode.can_run_on_computer`: unconditionally `True`. -/
def can_run_on_computer (_code : Bundle) (_computer : Computer) : Bool :=
  true

/-- Sandbox folder staged by a `CalcJob` plugin; `get_content_list` returns
the relative paths of its top-level contents. -/
structure Folder where
  contents : List String
  deriving Repr, DecidableEq

/-- The folder's `get_content_list()`. -/
def Folder.get_content_list (f : Folder) : List String :=
  f.contents

/-- `PortableCode.validate_working_directory`: raise `PluginInternalError`
when `str(self.filepath_executable)` is a member of the folder's content
list; the method reads but never writes, so the returned states equal the
arguments. -/
def validate_working_directory (b : Bundle) (folder : Folder) :
    Except PyError Unit × Bundle × Folder :=
  match filepath_executable_get b with
  | .error e => (.error e, b, folder)
  | .ok fe =>
      if pyStr fe ∈ folder.get_content_list then
        (.error (.pluginInternalError
            ("The plugin created a file " ++ pyStr fe ++ " that is also the executable name!")),
          b, folder)
      else
        (.ok (), b, folder)

/-- A filesystem entry at a given path: a plain file, or a directory together
with the relative-path/content pairs of every file below it. -/
inductive FSEntry where
  | fileEntry (content : Bytes)
  | dirEntry (files : List (String × Bytes))
  deriving Repr, DecidableEq

/-- Local filesystem visible to construction: a finite map from path strings
to entries; paths not listed do not exist. -/
structure FileSystem where
  entries : List (String × FSEntry)
  deriving Repr, DecidableEq

/-- Look up a path on the filesystem. -/
def FileSystem.lookup (fs : FileSystem) (path : String) : Option FSEntry :=
  (fs.entries.find? (fun kv => kv.1 == path)).map (fun kv => kv.2)

/-- Files below a directory path (empty when the path is not a directory);
used by the modelled tree ingest. -/
def FileSystem.treeOf (fs : FileSystem) (path : String) : List (String × Bytes) :=
  match fs.lookup path with
  | some (.dirEntry files) => files
  | _ => []

/-- `PortableCode.Model.validate_filepath_files`: require `filepath_files` to
name an existing directory, else raise with the corresponding message (the
spec's `InvalidInputError`); on success return the validated path. -/
def validate_filepath_files (fs : FileSystem) (value : String) : Except PyError String :=
  match fs.lookup value with
  | none => .error (.valueError ("The filepath `" ++ value ++ "` does not exist."))
  | some (.fileEntry _) =>
      .error (.valueError ("The filepath `" ++ value ++ "` is not a directory."))
  | some (.dirEntry _) => .ok value

/-- Construction (`create` of the spec): the model validator checks the source
directory, `__init__` then records the executable pointer through the property
setter and ingests the directory tree.  The tree ingest
(`put_object_from_tree`, modelled from the spec: every file under the source
directory is ingested preserving relative paths) is the collaborator's I/O
step; `storageFail = true` models its failure, which surfaces as the spec's
`StorageError` and yields no bundle. -/
def create (label : String) (entry : PyValue) (sourceDir : String) (fs : FileSystem)
    (storageFail : Bool) : Except PyError Bundle :=
  match validate_filepath_files fs sourceDir with
  | .error e => .error e
  | .ok filepath =>
      let b0 : Bundle := { label := label, attributes := [], repo := [], filepath_files := none }
      match filepath_executable_set b0 entry with
      | (.error e, _) => .error e
      | (.ok _, b1) =>
          if storageFail then .error (.storageError "put_object_from_tree failed")
          else .ok { b1 with repo := b1.repo ++ fs.treeOf filepath }

/-- `PortableCode._prepare_yaml`: inside `try`, set the transient
`filepath_files` attribute to `cwd/label`, run the inherited structured export
(opaque pre-step, modelled from the spec; `superYaml` is its outcome), then
walk the repository building `extra_files`, mapping each stored file's
absolute output path `target/relpath` to its raw bytes (the walk is the
repository collaborator's, modelled from the spec: it yields every stored
file once; `walkFail` models a read error during it).  The `finally` block
deletes the transient attribute on every exit path.  The second component is
the instance state after the call. -/
def prepare_yaml (b : Bundle) (cwd : String) (superYaml : Except PyError String)
    (walkFail : Option PyError) :
    Except PyError (String × List (String × Bytes)) × Bundle :=
  let target := cwd ++ "/" ++ b.label
  let b1 : Bundle := { b with filepath_files := some target }
  let bFinal : Bundle := { b1 with filepath_files := none }
  match superYaml with
  | .error e => (.error e, bFinal)
  | .ok result =>
      match walkFail with
      | some e => (.error e, bFinal)
      | none =>
          let extra_files := b1.repo.map (fun pc => (target ++ "/" ++ pc.1, pc.2))
          (.ok (result, extra_files), bFinal)

/-- One string occurs inside another (used to state that an error message
includes a path or a listing verbatim). -/
def strIncludes (big small : String) : Prop :=
  ∃ l r, big.data = l ++ small.data ++ r

end PortableCodeSpec

namespace PortableCodeSpec

/-- Setting an attribute makes a subsequent get of the same key return it. -/
theorem attrGet_attrSet (attrs : List (String × PyValue)) (key : String) (v : PyValue) :
    attrGet (attrSet attrs key v) key = some v := by
  simp [attrGet, attrSet, List.find?]

/-- Claim C1: for every bundle whose entry path is readable, `_validate`
succeeds iff the canonical string form of the entry path is one of the
relative-path strings returned by the repository's object-name listing; when
it is not present, `_validate` fails with a `ValidationError` whose message
includes both the attempted entry path and the full listing of stored object
names. -/
theorem validate_iff_member (b : Bundle) (fe : PyValue)
    (h : filepath_executable_get b = .ok fe) :
    (PortableCode_validate b = .ok () ↔ pyStr fe ∈ list_object_names b) ∧
    (pyStr fe ∉ list_object_names b →
      PortableCode_validate b =
          .error (.validationError (notUploadedMsg (pyStr fe) (list_object_names b))) ∧
      strIncludes (notUploadedMsg (pyStr fe) (list_object_names b)) (pyStr fe) ∧
      strIncludes (notUploadedMsg (pyStr fe) (list_object_names b))
        (pyReprList (list_object_names b))) := by
  constructor
  · unfold PortableCode_validate
    rw [h]
    by_cases hm : pyStr fe ∈ list_object_names b <;> simp [hm]
  · intro hm
    refine ⟨?_, ?_, ?_⟩
    · unfold PortableCode_validate
      rw [h]
      simp [hm]
    · exact ⟨("The executable `" : String).data,
        ("` is not one of the uploaded files: " : String).data ++
          (pyReprList (list_object_names b)).data,
        by simp [notUploadedMsg, String.data_append]⟩
    · exact ⟨("The executable `" : String).data ++ (pyStr fe).data ++
          ("` is not one of the uploaded files: " : String).data, [],
        by simp [notUploadedMsg, String.data_append]⟩

/-- Bundle used to witness claim C1: entry `run.sh`, stored objects only
`lib/helper.py` (the second concrete scenario of spec section 8). -/
def wC1 : Bundle :=
  ⟨"code", [("filepath_executable", PyValue.str "run.sh")], [("lib/helper.py", [104])], none⟩

/-- Witness for claim C1 at a concrete bundle whose entry is missing from the
listing. -/
theorem validate_iff_member_witness :
    (PortableCode_validate wC1 = .ok () ↔
      pyStr (.purePath "run.sh") ∈ list_object_names wC1) ∧
    (PortableCode_validate wC1 =
        .error (.validationError
          (notUploadedMsg (pyStr (.purePath "run.sh")) (list_object_names wC1))) ∧
      strIncludes (notUploadedMsg (pyStr (.purePath "run.sh")) (list_object_names wC1))
        (pyStr (.purePath "run.sh")) ∧
      strIncludes (notUploadedMsg (pyStr (.purePath "run.sh")) (list_object_names wC1))
        (pyReprList (list_object_names wC1))) :=
  ⟨(validate_iff_member wC1 (.purePath "run.sh") rfl).1,
    (validate_iff_member wC1 (.purePath "run.sh") rfl).2 (by decide)⟩

/-- Claim C2: for every bundle whose entry-path attribute is absent, the
getter's `PurePath(None)` conversion raises `TypeError` and `_validate` turns
it into the `ValidationError` stating that the entry point is not set. -/
theorem validate_unset (b : Bundle)
    (h : attrGet b.attributes KEY_ATTRIBUTE_FILEPATH_EXECUTABLE = none) :
    PortableCode_validate b =
      .error (.validationError "The `filepath_executable` is not set.") := by
  unfold PortableCode_validate filepath_executable_get
  rw [h]
  rfl

/-- Witness for claim C2 at a bundle with an empty attribute bag. -/
theorem validate_unset_witness :
    PortableCode_validate ⟨"code", [], [], none⟩ =
      .error (.validationError "The `filepath_executable` is not set.") :=
  validate_unset ⟨"code", [], [], none⟩ rfl

/-- Claim C3: `validate_working_directory` fails iff the canonical string of
the bundle's entry path is a member of the folder's content list (exact
string membership); on failure the error names the colliding path, and in
every case neither the bundle nor the folder is modified. -/
theorem working_directory_conflict (b : Bundle) (folder : Folder) (fe : PyValue)
    (h : filepath_executable_get b = .ok fe) :
    ((validate_working_directory b folder).1 = .ok () ↔
      pyStr fe ∉ folder.get_content_list) ∧
    (pyStr fe ∈ folder.get_content_list →
      ∃ msg, (validate_working_directory b folder).1 =
          .error (.pluginInternalError msg) ∧
        strIncludes msg (pyStr fe)) ∧
    (validate_working_directory b folder).2 = (b, folder) := by
  unfold validate_working_directory
  rw [h]
  by_cases hm : pyStr fe ∈ folder.get_content_list
  · refine ⟨by simp [hm], fun _ => ?_, by simp [hm]⟩
    refine ⟨"The plugin created a file " ++ pyStr fe ++ " that is also the executable name!",
      by simp [hm], ?_⟩
    exact ⟨("The plugin created a file " : String).data,
      (" that is also the executable name!" : String).data,
      by simp [String.data_append]⟩
  · exact ⟨by simp [hm], fun hc => absurd hc hm, by simp [hm]⟩

/-- Bundle used to witness claim C3. -/
def wC3 : Bundle :=
  ⟨"code", [("filepath_executable", PyValue.str "run.sh")], [("run.sh", [35])], none⟩

/-- Folder used to witness claim C3: it stages exactly the executable name. -/
def wC3f : Folder := ⟨["run.sh"]⟩

/-- Witness for claim C3 at a concrete bundle and a folder staging the
executable's own name. -/
theorem working_directory_conflict_witness :
    ((validate_working_directory wC3 wC3f).1 = .ok () ↔
      pyStr (.purePath "run.sh") ∉ wC3f.get_content_list) ∧
    (∃ msg, (validate_working_directory wC3 wC3f).1 =
        .error (.pluginInternalError msg) ∧
      strIncludes msg (pyStr (.purePath "run.sh"))) ∧
    (validate_working_directory wC3 wC3f).2 = (wC3, wC3f) :=
  ⟨(working_directory_conflict wC3 wC3f (.purePath "run.sh") rfl).1,
    (working_directory_conflict wC3 wC3f (.purePath "run.sh") rfl).2.1 (by decide),
    (working_directory_conflict wC3 wC3f (.purePath "run.sh") rfl).2.2⟩

/-- Claim C4: setting the entry pointer to a syntactically absolute string
always fails with the `ValueError` the spec calls `InvalidInputError`,
regardless of the rest of the state, and returns the instance unchanged; and
any successful set stored a non-absolute string under the attribute key. -/
theorem setter_rejects_absolute (b : Bundle) (s : String) (h : isAbsolutePath s = true) :
    filepath_executable_set b (.str s) =
      (.error (.valueError "The `filepath_executable` should not be absolute."), b) ∧
    (∀ (v : PyValue) (b' : Bundle), filepath_executable_set b v = (.ok (), b') →
      ∃ t, v = .str t ∧ isAbsolutePath t = false ∧
        attrGet b'.attributes KEY_ATTRIBUTE_FILEPATH_EXECUTABLE = some (.str t)) := by
  constructor
  · simp [filepath_executable_set, h]
  · intro v b' hset
    cases v with
    | purePath s' => simp [filepath_executable_set] at hset
    | str t =>
        by_cases ht : isAbsolutePath t = true
        · simp [filepath_executable_set, ht] at hset
        · refine ⟨t, rfl, by simpa using ht, ?_⟩
          simp [filepath_executable_set, ht] at hset
          rw [← hset]
          exact attrGet_attrSet _ _ _

/-- Witness for claim C4: setting `/bin/run.sh` on a bundle that already
stores `old.sh` fails and leaves the stored attribute untouched. -/
theorem setter_rejects_absolute_witness :
    filepath_executable_set
        ⟨"code", [("filepath_executable", PyValue.str "old.sh")], [], none⟩
        (.str "/bin/run.sh") =
      (.error (.valueError "The `filepath_executable` should not be absolute."),
        ⟨"code", [("filepath_executable", PyValue.str "old.sh")], [], none⟩) :=
  (setter_rejects_absolute
    ⟨"code", [("filepath_executable", PyValue.str "old.sh")], [], none⟩
    "/bin/run.sh" rfl).1

/-- Claim C5: constructing from a directory tree and then exporting yields a
manifest that maps, for each stored file, the absolute output path (target
joined with the file's bundle-relative path) to exactly that file's raw
bytes. -/
theorem create_export_roundtrip (label cwd entry src yaml : String)
    (fs : FileSystem) (files : List (String × Bytes)) (c0 : Bytes)
    (hdir : fs.lookup src = some (.dirEntry files))
    (_hf : (entry, c0) ∈ files)
    (hrel : isAbsolutePath entry = false) :
    ∃ b : Bundle, create label (.str entry) src fs false = .ok b ∧
      b.repo = files ∧
      (prepare_yaml b cwd (.ok yaml) none).1 =
        .ok (yaml, files.map (fun pc => (cwd ++ "/" ++ label ++ "/" ++ pc.1, pc.2))) ∧
      ∀ p c, (p, c) ∈ files →
        (cwd ++ "/" ++ label ++ "/" ++ p, c) ∈
          files.map (fun pc => (cwd ++ "/" ++ label ++ "/" ++ pc.1, pc.2)) := by
  refine ⟨{ label := label, attributes := attrSet [] KEY_ATTRIBUTE_FILEPATH_EXECUTABLE (.str entry), repo := files, filepath_files := none }, ?_, rfl, ?_, ?_⟩
  · unfold create validate_filepath_files FileSystem.treeOf
    rw [hdir]
    simp [filepath_executable_set, hrel, hdir]
  · unfold prepare_yaml
    simp
  · intro p c hpc
    exact List.mem_map_of_mem _ hpc

/-- Filesystem used to witness claims C5 and C6: one source directory holding
`run.sh` and `lib/helper.py` (the first concrete scenario of spec
section 8). -/
def wFS : FileSystem :=
  ⟨[("/src", FSEntry.dirEntry [("run.sh", [35, 33]), ("lib/helper.py", [104])])]⟩

/-- Witness for claim C5 at the two-file tree of the spec's concrete
scenario. -/
theorem create_export_roundtrip_witness :
    ∃ b : Bundle, create "code" (.str "run.sh") "/src" wFS false = .ok b ∧
      b.repo = [("run.sh", [35, 33]), ("lib/helper.py", [104])] ∧
      (prepare_yaml b "/tmp" (.ok "yaml") none).1 =
        .ok ("yaml", ([("run.sh", [35, 33]), ("lib/helper.py", [104])] :
            List (String × Bytes)).map
          (fun pc => ("/tmp" ++ "/" ++ "code" ++ "/" ++ pc.1, pc.2))) ∧
      ∀ p c, (p, c) ∈ ([("run.sh", [35, 33]), ("lib/helper.py", [104])] :
          List (String × Bytes)) →
        ("/tmp" ++ "/" ++ "code" ++ "/" ++ p, c) ∈
          ([("run.sh", [35, 33]), ("lib/helper.py", [104])] :
            List (String × Bytes)).map
            (fun pc => ("/tmp" ++ "/" ++ "code" ++ "/" ++ pc.1, pc.2)) :=
  create_export_roundtrip "code" "/tmp" "run.sh" "/src" "yaml" wFS
    [("run.sh", [35, 33]), ("lib/helper.py", [104])] [35, 33] rfl (by decide) rfl

/-- Claim C6: when the tree-ingest step fails, construction surfaces the
spec's `StorageError` and no bundle is returned — the caller cannot observe
any half-built state. -/
theorem create_storage_failure_atomic (label entry src : String) (fs : FileSystem)
    (files : List (String × Bytes))
    (hdir : fs.lookup src = some (.dirEntry files))
    (hrel : isAbsolutePath entry = false) :
    create label (.str entry) src fs true =
      .error (.storageError "put_object_from_tree failed") ∧
    ∀ b : Bundle, create label (.str entry) src fs true ≠ .ok b := by
  have h1 : create label (.str entry) src fs true =
      .error (.storageError "put_object_from_tree failed") := by
    unfold create validate_filepath_files
    rw [hdir]
    simp [filepath_executable_set, hrel]
  exact ⟨h1, fun b hb => by simp [h1] at hb⟩

/-- Witness for claim C6 at the concrete two-file tree. -/
theorem create_storage_failure_atomic_witness :
    create "code" (.str "run.sh") "/src" wFS true =
      .error (.storageError "put_object_from_tree failed") ∧
    ∀ b : Bundle, create "code" (.str "run.sh") "/src" wFS true ≠ .ok b :=
  create_storage_failure_atomic "code" "run.sh" "/src" wFS
    [("run.sh", [35, 33]), ("lib/helper.py", [104])] rfl rfl

/-- Claim C7: a source-directory argument that does not exist, or is not a
directory, makes construction fail with the corresponding `InvalidInputError`
message, and no bundle (hence no ingested store scope) is ever produced,
whatever the storage oracle would have done. -/
theorem create_invalid_source (label : String) (entry : PyValue) (src : String)
    (fs : FileSystem) (storageFail : Bool) :
    (fs.lookup src = none →
      create label entry src fs storageFail =
        .error (.valueError ("The filepath `" ++ src ++ "` does not exist."))) ∧
    (∀ c, fs.lookup src = some (.fileEntry c) →
      create label entry src fs storageFail =
        .error (.valueError ("The filepath `" ++ src ++ "` is not a directory."))) ∧
    (∀ b : Bundle, (∀ files, fs.lookup src ≠ some (.dirEntry files)) →
      create label entry src fs storageFail ≠ .ok b) := by
  refine ⟨?_, ?_, ?_⟩
  · intro h
    unfold create validate_filepath_files
    rw [h]
  · intro c h
    unfold create validate_filepath_files
    rw [h]
  · intro b hnot hok
    unfold create validate_filepath_files at hok
    cases he : fs.lookup src with
    | none => rw [he] at hok; simp at hok
    | some e =>
        cases e with
        | fileEntry c => rw [he] at hok; simp at hok
        | dirEntry files => exact hnot files he

/-- Witness for claim C7: a missing path and a plain-file path each produce
the corresponding error. -/
theorem create_invalid_source_witness :
    create "code" (PyValue.str "run.sh") "/missing"
        ⟨[("/afile", FSEntry.fileEntry [1])]⟩ false =
      .error (.valueError ("The filepath `" ++ "/missing" ++ "` does not exist.")) ∧
    create "code" (PyValue.str "run.sh") "/afile"
        ⟨[("/afile", FSEntry.fileEntry [1])]⟩ false =
      .error (.valueError ("The filepath `" ++ "/afile" ++ "` is not a directory.")) :=
  ⟨(create_invalid_source "code" (PyValue.str "run.sh") "/missing"
      ⟨[("/afile", FSEntry.fileEntry [1])]⟩ false).1 rfl,
    (create_invalid_source "code" (PyValue.str "run.sh") "/afile"
      ⟨[("/afile", FSEntry.fileEntry [1])]⟩ false).2.1 [1] rfl⟩

/-- Claim C8: on every exit path of `_prepare_yaml` — success, a failure of
the inherited structured export, or a failure during the repository walk —
the transient `filepath_files` attribute is absent from the final instance
state. -/
theorem prepare_yaml_clears_transient (b : Bundle) (cwd : String)
    (superYaml : Except PyError String) (walkFail : Option PyError) :
    ((prepare_yaml b cwd superYaml walkFail).2).filepath_files = none := by
  unfold prepare_yaml
  cases superYaml <;> cases walkFail <;> rfl

/-- Claim C9: `can_run_on_computer` returns `True` for every bundle and every
target, and the result never varies with the bundle or the target. -/
theorem can_run_on_computer_true :
    (∀ (b : Bundle) (computer : Computer), can_run_on_computer b computer = true) ∧
    (∀ (b1 b2 : Bundle) (c1 c2 : Computer),
      can_run_on_computer b1 c1 = can_run_on_computer b2 c2) :=
  ⟨fun _ _ => rfl, fun _ _ _ _ => rfl⟩

/-- Claim C10: the setter accepts only plain strings — any non-string value,
in particular the `PurePath` the getter itself returns, raises `TypeError` —
while after a successful set of a string `v` the getter returns the pure-path
form of `v`; feeding the getter's own result back into the setter fails. -/
theorem accessor_asymmetry (b : Bundle) (v : String) (hv : isAbsolutePath v = false) :
    (∀ w : PyValue, (∀ s, w ≠ PyValue.str s) →
      ∃ m, (filepath_executable_set b w).1 = .error (.typeError m)) ∧
    (∃ b1, filepath_executable_set b (.str v) = (.ok (), b1) ∧
      filepath_executable_get b1 = .ok (.purePath (purePathStr v)) ∧
      ∃ m, (filepath_executable_set b1 (.purePath (purePathStr v))).1 =
        .error (.typeError m)) := by
  constructor
  · intro w hw
    cases w with
    | str s => exact absurd rfl (hw s)
    | purePath s => exact ⟨_, rfl⟩
  · refine ⟨{ b with attributes := attrSet b.attributes KEY_ATTRIBUTE_FILEPATH_EXECUTABLE (.str v) }, ?_, ?_, ⟨_, rfl⟩⟩
    · simp [filepath_executable_set, hv]
    · unfold filepath_executable_get
      rw [attrGet_attrSet]
      rfl

/-- Witness for claim C10 at the relative path `run.sh` on a fresh bundle. -/
theorem accessor_asymmetry_witness :
    ∃ b1, filepath_executable_set ⟨"code", [], [], none⟩ (.str "run.sh") = (.ok (), b1) ∧
      filepath_executable_get b1 = .ok (.purePath (purePathStr "run.sh")) ∧
      ∃ m, (filepath_executable_set b1 (.purePath (purePathStr "run.sh"))).1 =
        .error (.typeError m) :=
  (accessor_asymmetry ⟨"code", [], [], none⟩ "run.sh" rfl).2

end PortableCodeSpec
